import Mathlib

/-!
Verification development for the `jup-ag-sdk` Rust client library
(Jupiter aggregator HTTP/JSON client).

Shallow embedding conventions:
* Rust `u8`/`u16`/`u32`/`u64` fields are embedded as `Nat` (they are only
  stored and stringified by the code under study; no overflowing arithmetic
  is ever performed on them).
* Rust `i32` fields are embedded as `Int`.
* Rust `f64` fields are embedded as `Rat`; the client only stores and
  forwards these values, it never computes with them.
* `Option<T>` becomes `Option`; `Vec<T>` becomes `List`; `String` stays
  `String`.
* A serialized JSON document is a `Json` tree; a serialized query string is
  an association list `List (String × String)` of key/value parameters in
  emission order.
* serde behaviour is embedded per type, following the declared attributes:
  `rename_all = "camelCase"` and field renames are applied literally;
  `skip_serializing_if = "Option::is_none"` drops the key; an `Option`
  field without that attribute serializes `None` as JSON `null`;
  the query-string serializer used by `reqwest::RequestBuilder::query`
  (serde_urlencoded) skips `None` fields entirely.
-/

namespace JupAg

/-- JSON value tree used as the target of body serialization. -/
inductive Json where
  | null : Json
  | bool (b : Bool) : Json
  | nat (n : Nat) : Json
  | int (i : Int) : Json
  | rat (q : Rat) : Json
  | str (s : String) : Json
  | arr (elems : List Json) : Json
  | obj (fields : List (String × Json)) : Json

/-- Key lookup in a serialized JSON object; `none` on non-objects and on
objects that do not carry the key at all. -/
def Json.objLookup (j : Json) (key : String) : Option Json :=
  match j with
  | .obj fields => fields.lookup key
  | _ => none

/-- The keys of a serialized JSON object, in emission order. -/
def Json.objKeys (j : Json) : List String :=
  match j with
  | .obj fields => fields.map Prod.fst
  | _ => []

/-- One optional wire entry: an unset (`none`) value contributes no pair at
all, a set value contributes exactly one pair.  This mirrors both the
`skip_serializing_if = "Option::is_none"` serde attribute on JSON bodies and
serde_urlencoded's treatment of `Option` fields in query strings, as well as
the hand-written `if let Some(x) = … \x7b map.insert(k, x) \x7d` chains. -/
def optPair {α : Type} (key : String) (v : Option α) : List (String × α) :=
  match v with
  | none => []
  | some a => [(key, a)]

/-- Rust `bool::to_string` / serde bool encoding into query values. -/
def boolStr (b : Bool) : String :=
  if b then "true" else "false"

/-- Rust `Vec::join(",")` — also the body of the `vec_to_comma_string`
serializer in `types/token.rs`. -/
def vec_to_comma_string (vec : List String) : String :=
  String.intercalate "," vec

section LookupLemmas

variable {α : Type}

theorem lookup_append (key : String) (l₁ l₂ : List (String × α)) :
    (l₁ ++ l₂).lookup key = ((l₁.lookup key).or (l₂.lookup key)) := by
  induction l₁ with
  | nil => simp [List.lookup]
  | cons hd tl ih =>
      cases hd with
      | mk k v =>
          by_cases h : (key == k) = true
          · simp [List.lookup, h, Option.or]
          · simp only [Bool.not_eq_true] at h
            simp [List.lookup, h, ih]

theorem lookup_optPair_same (key : String) (v : Option α) :
    (optPair key v).lookup key = v := by
  cases v <;> simp [optPair, List.lookup]

theorem lookup_optPair_ne (key k : String) (v : Option α)
    (h : (key == k) = false) :
    (optPair k v).lookup key = none := by
  cases v <;> simp [optPair, List.lookup, h]

theorem countP_optPair_ne (key k : String) (v : Option α)
    (h : (k == key) = false) :
    (optPair k v).countP (fun p => p.1 == key) = 0 := by
  cases v <;> simp [optPair, h]

theorem countP_optPair_same (key : String) (v : Option α) :
    (optPair key v).countP (fun p => p.1 == key)
      = if v.isSome then 1 else 0 := by
  cases v <;> simp [optPair]

end LookupLemmas

/-! ## Swap-mode enum (`src/types.rs`, `#[serde(rename_all = "PascalCase")]`) -/

/-- `QuoteGetSwapModeEnum` from `src/types.rs`. -/
inductive QuoteGetSwapModeEnum where
  | ExactIn : QuoteGetSwapModeEnum
  | ExactOut : QuoteGetSwapModeEnum

/-- serde string encoding of `QuoteGetSwapModeEnum`: the enum is declared
with `rename_all = "PascalCase"`, whose output coincides with the variant
names as written in the source. -/
def QuoteGetSwapModeEnum.toWire : QuoteGetSwapModeEnum → String
  | .ExactIn => "ExactIn"
  | .ExactOut => "ExactOut"

/-! ## QuoteRequest (`src/types.rs`) and its builders -/

/-- `QuoteRequest` from `src/types.rs` (field `dyanmic_slippage` is spelled
exactly as in the source). -/
structure QuoteRequest where
  input_mint : String
  output_mint : String
  amount : Nat
  slippage_bps : Option Nat
  swap_mode : Option QuoteGetSwapModeEnum
  dexes : Option (List String)
  exclude_dexes : Option (List String)
  restrict_intermediate_tokens : Option Bool
  only_direct_routes : Option Bool
  as_legacy_transaction : Option Bool
  platform_fee_bps : Option Nat
  max_accounts : Option Nat
  dyanmic_slippage : Option Bool

/-- `QuoteRequest::new`: stores the mints and the amount verbatim and leaves
every optional field unset.  No validation is performed. -/
def QuoteRequest.new (input_mint output_mint : String) (amount : Nat) :
    QuoteRequest :=
  { input_mint := input_mint
    output_mint := output_mint
    amount := amount
    slippage_bps := none
    swap_mode := none
    dexes := none
    exclude_dexes := none
    restrict_intermediate_tokens := none
    only_direct_routes := none
    as_legacy_transaction := none
    platform_fee_bps := none
    max_accounts := none
    dyanmic_slippage := none }

/-- Builder `QuoteRequest::slippage_bps` (renamed `with_slippage_bps` here
because the Lean field projection already carries the Rust method's name). -/
def QuoteRequest.with_slippage_bps (q : QuoteRequest) (slippage_bps : Nat) :
    QuoteRequest :=
  { q with slippage_bps := some slippage_bps }

/-- Builder `QuoteRequest::swap_mode`. -/
def QuoteRequest.with_swap_mode (q : QuoteRequest)
    (swap_mode : QuoteGetSwapModeEnum) : QuoteRequest :=
  { q with swap_mode := some swap_mode }

/-- Builder `QuoteRequest::dexes`. -/
def QuoteRequest.with_dexes (q : QuoteRequest) (dexes : List String) :
    QuoteRequest :=
  { q with dexes := some dexes }

/-- Builder `QuoteRequest::exclude_dexes`. -/
def QuoteRequest.with_exclude_dexes (q : QuoteRequest)
    (exclude_dexes : List String) : QuoteRequest :=
  { q with exclude_dexes := some exclude_dexes }

/-- Builder `QuoteRequest::restrict_intermediate_tokens`. -/
def QuoteRequest.with_restrict_intermediate_tokens (q : QuoteRequest)
    (restrict_intermediate_tokens : Bool) : QuoteRequest :=
  { q with restrict_intermediate_tokens := some restrict_intermediate_tokens }

/-- Builder `QuoteRequest::only_direct_routes`. -/
def QuoteRequest.with_only_direct_routes (q : QuoteRequest)
    (only_direct_routes : Bool) : QuoteRequest :=
  { q with only_direct_routes := some only_direct_routes }

/-- Builder `QuoteRequest::as_legacy_transaction`. -/
def QuoteRequest.with_as_legacy_transaction (q : QuoteRequest)
    (as_legacy_transaction : Bool) : QuoteRequest :=
  { q with as_legacy_transaction := some as_legacy_transaction }

/-- Builder `QuoteRequest::platform_fee_bps`. -/
def QuoteRequest.with_platform_fee_bps (q : QuoteRequest)
    (platform_fee_bps : Nat) : QuoteRequest :=
  { q with platform_fee_bps := some platform_fee_bps }

/-- Builder `QuoteRequest::max_accounts`. -/
def QuoteRequest.with_max_accounts (q : QuoteRequest) (max_accounts : Nat) :
    QuoteRequest :=
  { q with max_accounts := some max_accounts }

/-- Builder `QuoteRequest::dyanmic_slippage`. -/
def QuoteRequest.with_dyanmic_slippage (q : QuoteRequest)
    (dyanmic_slippage : Bool) : QuoteRequest :=
  { q with dyanmic_slippage := some dyanmic_slippage }

/-- Query-parameter construction of `JupiterClient::get_quote`
(`src/lib.rs`, lines 64–114): the three required parameters are always
inserted; each optional parameter is inserted only under `if let Some`,
stringified with `to_string` (lists via `join(",")`, the swap mode via the
explicit `match` producing `"ExactIn"`/`"ExactOut"`, and `dyanmic_slippage`
under the wire key `autoSlippage`). -/
def get_quote_query (params : QuoteRequest) : List (String × String) :=
  [("inputMint", params.input_mint),
   ("outputMint", params.output_mint),
   ("amount", toString params.amount)]
  ++ optPair "slippageBps" (params.slippage_bps.map toString)
  ++ optPair "swapMode" (params.swap_mode.map QuoteGetSwapModeEnum.toWire)
  ++ optPair "dexes" (params.dexes.map vec_to_comma_string)
  ++ optPair "excludeDexes" (params.exclude_dexes.map vec_to_comma_string)
  ++ optPair "restrictIntermediateTokens"
      (params.restrict_intermediate_tokens.map boolStr)
  ++ optPair "onlyDirectRoutes" (params.only_direct_routes.map boolStr)
  ++ optPair "asLegacyTransaction" (params.as_legacy_transaction.map boolStr)
  ++ optPair "platformFeeBps" (params.platform_fee_bps.map toString)
  ++ optPair "maxAccounts" (params.max_accounts.map toString)
  ++ optPair "autoSlippage" (params.dyanmic_slippage.map boolStr)

/-! ## TokenPriceRequest (`jup-ag-sdk/src/types/token.rs`) -/

/-- `TokenPriceRequest` from `types/token.rs`. -/
structure TokenPriceRequest where
  token_mints : List String
  vs_token : Option String
  show_extra_info : Option Bool

/-- `TokenPriceRequest::new`. -/
def TokenPriceRequest.new (token_mints : List String) : TokenPriceRequest :=
  { token_mints := token_mints
    vs_token := none
    show_extra_info := none }

/-- Builder `TokenPriceRequest::with_vs_token`. -/
def TokenPriceRequest.with_vs_token (r : TokenPriceRequest)
    (vs_token : String) : TokenPriceRequest :=
  { r with vs_token := some vs_token }

/-- Builder `TokenPriceRequest::with_show_extra_info`. -/
def TokenPriceRequest.with_show_extra_info (r : TokenPriceRequest)
    (show_extra_info : Bool) : TokenPriceRequest :=
  { r with show_extra_info := some show_extra_info }

/-- Query-string serialization of `TokenPriceRequest` as performed by
`reqwest::RequestBuilder::query(&params)` (serde_urlencoded) under the
declared serde attributes: `token_mints` is renamed to `ids` and rendered by
`vec_to_comma_string`; the remaining fields are camel-cased; unset `Option`
fields contribute no pair at all. -/
def TokenPriceRequest.toQuery (r : TokenPriceRequest) :
    List (String × String) :=
  [("ids", vec_to_comma_string r.token_mints)]
  ++ optPair "vsToken" r.vs_token
  ++ optPair "showExtraInfo" (r.show_extra_info.map boolStr)

/-! ## UltraOrderRequest (`jup-ag-sdk/src/types/ultra.rs`) -/

/-- `UltraOrderRequest` from `types/ultra.rs`. -/
structure UltraOrderRequest where
  input_mint : String
  output_mint : String
  amount : Nat
  taker : Option String
  referral_account : Option String
  referral_fee : Option Nat

/-- `UltraOrderRequest::new`. -/
def UltraOrderRequest.new (input_mint output_mint : String) (amount : Nat) :
    UltraOrderRequest :=
  { input_mint := input_mint
    output_mint := output_mint
    amount := amount
    taker := none
    referral_account := none
    referral_fee := none }

/-- Builder `UltraOrderRequest::add_taker`. -/
def UltraOrderRequest.add_taker (r : UltraOrderRequest) (taker : String) :
    UltraOrderRequest :=
  { r with taker := some taker }

/-- Query-string serialization of `UltraOrderRequest` as performed by
`JupiterClient::get_ultra_order`'s `.query(&params)` call (serde_urlencoded,
camelCase field renames, unset `Option` fields skipped). -/
def UltraOrderRequest.toQuery (r : UltraOrderRequest) :
    List (String × String) :=
  [("inputMint", r.input_mint),
   ("outputMint", r.output_mint),
   ("amount", toString r.amount)]
  ++ optPair "taker" r.taker
  ++ optPair "referralAccount" r.referral_account
  ++ optPair "referralFee" (r.referral_fee.map toString)

/-! ## QuoteResponse and SwapRequest (`src/types.rs`) with JSON bodies -/

/-- `PlatformFee` from `src/types.rs`. -/
structure PlatformFee where
  amount : String
  fee_bps : Int

/-- JSON body of `PlatformFee` (camelCase). -/
def PlatformFee.toJson (p : PlatformFee) : Json :=
  .obj [("amount", .str p.amount), ("feeBps", .int p.fee_bps)]

/-- `SwapInfo` from `src/types.rs`. -/
structure SwapInfo where
  amm_key : String
  label : String
  input_mint : String
  output_mint : String
  in_amount : String
  out_amount : String
  fee_amount : String
  fee_mint : String

/-- JSON body of `SwapInfo` (camelCase). -/
def SwapInfo.toJson (s : SwapInfo) : Json :=
  .obj [("ammKey", .str s.amm_key),
        ("label", .str s.label),
        ("inputMint", .str s.input_mint),
        ("outputMint", .str s.output_mint),
        ("inAmount", .str s.in_amount),
        ("outAmount", .str s.out_amount),
        ("feeAmount", .str s.fee_amount),
        ("feeMint", .str s.fee_mint)]

/-- `RoutePlanItem` from `src/types.rs`. -/
structure RoutePlanItem where
  swap_info : SwapInfo
  percent : Int

/-- JSON body of `RoutePlanItem` (camelCase). -/
def RoutePlanItem.toJson (r : RoutePlanItem) : Json :=
  .obj [("swapInfo", r.swap_info.toJson), ("percent", .int r.percent)]

/-- `MostReliableAmmsQuoteReport` from `src/types.rs`; the Rust `HashMap`
is embedded as an association list. -/
structure MostReliableAmmsQuoteReport where
  info : List (String × String)

/-- JSON body of `MostReliableAmmsQuoteReport` (camelCase). -/
def MostReliableAmmsQuoteReport.toJson (m : MostReliableAmmsQuoteReport) :
    Json :=
  .obj [("info", .obj (m.info.map (fun p => (p.1, .str p.2))))]

/-- `QuoteResponse` from `src/types.rs`.  `serde_json::Value` fields are
embedded as raw `Json`. -/
structure QuoteResponse where
  input_mint : String
  in_amount : String
  output_mint : String
  out_amount : String
  other_amount_threshold : String
  swap_mode : QuoteGetSwapModeEnum
  slippage_bps : Int
  platform_fee : Option PlatformFee
  price_impact_pct : String
  route_plan : List RoutePlanItem
  score_report : Option Json
  context_slot : Nat
  time_taken : Rat
  swap_usd_value : Option String
  simpler_route_used : Option Bool
  most_reliable_amms_quote_report : Option MostReliableAmmsQuoteReport
  use_incurred_slippage_for_quoting : Option Json

/-- Serde encoding of an `Option` field that carries no
`skip_serializing_if` attribute: `None` is emitted as JSON `null`. -/
def optNullJson (v : Option Json) : Json :=
  v.getD .null

/-- JSON body of `QuoteResponse` (camelCase; its `Option` fields carry no
`skip_serializing_if` attribute, so unset ones serialize as `null`). -/
def QuoteResponse.toJson (q : QuoteResponse) : Json :=
  .obj [("inputMint", .str q.input_mint),
        ("inAmount", .str q.in_amount),
        ("outputMint", .str q.output_mint),
        ("outAmount", .str q.out_amount),
        ("otherAmountThreshold", .str q.other_amount_threshold),
        ("swapMode", .str q.swap_mode.toWire),
        ("slippageBps", .int q.slippage_bps),
        ("platformFee", optNullJson (q.platform_fee.map PlatformFee.toJson)),
        ("priceImpactPct", .str q.price_impact_pct),
        ("routePlan", .arr (q.route_plan.map RoutePlanItem.toJson)),
        ("scoreReport", optNullJson q.score_report),
        ("contextSlot", .nat q.context_slot),
        ("timeTaken", .rat q.time_taken),
        ("swapUsdValue", optNullJson (q.swap_usd_value.map Json.str)),
        ("simplerRouteUsed", optNullJson (q.simpler_route_used.map Json.bool)),
        ("mostReliableAmmsQuoteReport",
          optNullJson (q.most_reliable_amms_quote_report.map
            MostReliableAmmsQuoteReport.toJson)),
        ("useIncurredSlippageForQuoting",
          optNullJson q.use_incurred_slippage_for_quoting)]

/-- `PriorityLevel` from `src/types.rs`. -/
inductive PriorityLevel where
  | Medium : PriorityLevel
  | High : PriorityLevel
  | VeryHigh : PriorityLevel

/-- serde string encoding of `PriorityLevel`
(`rename_all = "camelCase"` on the enum variants). -/
def PriorityLevel.toWire : PriorityLevel → String
  | .Medium => "medium"
  | .High => "high"
  | .VeryHigh => "veryHigh"

/-- `PriorityLevelWithMaxLamports` from `src/types.rs`. -/
structure PriorityLevelWithMaxLamports where
  max_lamports : Nat
  priority_level : PriorityLevel

/-- JSON body of `PriorityLevelWithMaxLamports` (camelCase). -/
def PriorityLevelWithMaxLamports.toJson (p : PriorityLevelWithMaxLamports) :
    Json :=
  .obj [("maxLamports", .nat p.max_lamports),
        ("priorityLevel", .str p.priority_level.toWire)]

/-- `PrioritizationFeeLamports` from `src/types.rs`. -/
structure PrioritizationFeeLamports where
  jito_tip_lamports : Option Nat
  priority_level_with_max_lamports : PriorityLevelWithMaxLamports

/-- JSON body of `PrioritizationFeeLamports` (camelCase;
`jito_tip_lamports` has no `skip_serializing_if`, so `None` is `null`). -/
def PrioritizationFeeLamports.toJson (p : PrioritizationFeeLamports) : Json :=
  .obj [("jitoTipLamports",
          optNullJson (p.jito_tip_lamports.map Json.nat)),
        ("priorityLevelWithMaxLamports",
          p.priority_level_with_max_lamports.toJson)]

/-- `SwapRequest` from `src/types.rs` (lines 161–190).  Every `Option`
field of this struct carries `skip_serializing_if = "Option::is_none"`. -/
structure SwapRequest where
  user_public_key : String
  wrap_and_unwrap_sol : Option Bool
  use_shared_accounts : Option Bool
  fee_account : Option String
  tracking_account : Option String
  prioritization_fee_lamports : Option PrioritizationFeeLamports
  as_legacy_transaction : Option Bool
  destination_token_account : Option String
  dynamic_compute_unit_limit : Option Bool
  skip_user_account_rpc_calls : Option Bool
  dyanmic_slippage : Option Bool
  compute_unit_price_micro_lamports : Option Nat
  blockhash_slots_to_expiry : Option Nat
  quote_response : QuoteResponse

/-- `SwapRequest::new`: stores the wallet key and the quote, leaving every
optional field unset. -/
def SwapRequest.new (input_wallet : String) (quote : QuoteResponse) :
    SwapRequest :=
  { user_public_key := input_wallet
    wrap_and_unwrap_sol := none
    use_shared_accounts := none
    fee_account := none
    tracking_account := none
    prioritization_fee_lamports := none
    as_legacy_transaction := none
    destination_token_account := none
    dynamic_compute_unit_limit := none
    skip_user_account_rpc_calls := none
    dyanmic_slippage := none
    compute_unit_price_micro_lamports := none
    blockhash_slots_to_expiry := none
    quote_response := quote }

/-- JSON body of `SwapRequest` (camelCase) as posted by
`get_swap_transaction` / `get_swap_instructions`: every `Option` field is
guarded by `skip_serializing_if = "Option::is_none"`, so an unset field
contributes no key at all and a set field serializes its inner value. -/
def SwapRequest.toJson (r : SwapRequest) : Json :=
  .obj ([("userPublicKey", Json.str r.user_public_key)]
    ++ optPair "wrapAndUnwrapSol" (r.wrap_and_unwrap_sol.map Json.bool)
    ++ optPair "useSharedAccounts" (r.use_shared_accounts.map Json.bool)
    ++ optPair "feeAccount" (r.fee_account.map Json.str)
    ++ optPair "trackingAccount" (r.tracking_account.map Json.str)
    ++ optPair "prioritizationFeeLamports"
        (r.prioritization_fee_lamports.map PrioritizationFeeLamports.toJson)
    ++ optPair "asLegacyTransaction" (r.as_legacy_transaction.map Json.bool)
    ++ optPair "destinationTokenAccount"
        (r.destination_token_account.map Json.str)
    ++ optPair "dynamicComputeUnitLimit"
        (r.dynamic_compute_unit_limit.map Json.bool)
    ++ optPair "skipUserAccountRpcCalls"
        (r.skip_user_account_rpc_calls.map Json.bool)
    ++ optPair "dyanmicSlippage" (r.dyanmic_slippage.map Json.bool)
    ++ optPair "computeUnitPriceMicroLamports"
        (r.compute_unit_price_micro_lamports.map Json.nat)
    ++ optPair "blockhashSlotsToExpiry"
        (r.blockhash_slots_to_expiry.map Json.nat)
    ++ [("quoteResponse", r.quote_response.toJson)])

/-! ## Recurring-order types (`jup-ag-sdk/src/types/recurring.rs`) -/

/-- `TimeParams` from `types/recurring.rs`. -/
structure TimeParams where
  in_amount : Nat
  number_of_orders : Nat
  interval : Nat
  min_price : Option Rat
  max_price : Option Rat
  start_at : Option Nat

/-- `PriceParams` from `types/recurring.rs`. -/
structure PriceParams where
  deposit_amount : Nat
  increment_usdc_value : Nat
  interval : Nat
  start_at : Option Nat

/-- `OrderParams` from `types/recurring.rs`: a two-variant enum declared
`#[serde(untagged)]`, variants in source order `TimeWrapper` then
`PriceWrapper`. -/
inductive OrderParams where
  | TimeWrapper (time : TimeParams) : OrderParams
  | PriceWrapper (price : PriceParams) : OrderParams

/-- JSON body of `TimeParams` (camelCase; its `Option` fields carry no
`skip_serializing_if`, so unset ones serialize as `null`). -/
def TimeParams.toJson (t : TimeParams) : Json :=
  .obj [("inAmount", .nat t.in_amount),
        ("numberOfOrders", .nat t.number_of_orders),
        ("interval", .nat t.interval),
        ("minPrice", optNullJson (t.min_price.map Json.rat)),
        ("maxPrice", optNullJson (t.max_price.map Json.rat)),
        ("startAt", optNullJson (t.start_at.map Json.nat))]

/-- JSON body of `PriceParams` (camelCase). -/
def PriceParams.toJson (p : PriceParams) : Json :=
  .obj [("depositAmount", .nat p.deposit_amount),
        ("incrementUsdcValue", .nat p.increment_usdc_value),
        ("interval", .nat p.interval),
        ("startAt", optNullJson (p.start_at.map Json.nat))]

/-- Untagged serde serialization of `OrderParams`: no discriminator key is
emitted; the variant payload's single field name (`time` or `price`) is the
only key of the resulting object. -/
def OrderParams.toJson : OrderParams → Json
  | .TimeWrapper time => .obj [("time", time.toJson)]
  | .PriceWrapper price => .obj [("price", price.toJson)]

/-- Decode a required `u64` field from a JSON object slot. -/
def decodeNat : Option Json → Option Nat
  | some (.nat n) => some n
  | _ => none

/-- Decode an `Option<u64>` field: a missing slot and JSON `null` both
decode to `none` (serde defaults `Option` fields to `None`). -/
def decodeOptNat : Option Json → Option (Option Nat)
  | none => some none
  | some .null => some none
  | some (.nat n) => some (some n)
  | _ => none

/-- Decode an `Option<f64>` field: a missing slot and JSON `null` both
decode to `none`; an integral JSON number is also a valid `f64`. -/
def decodeOptRat : Option Json → Option (Option Rat)
  | none => some none
  | some .null => some none
  | some (.rat q) => some (some q)
  | some (.nat n) => some (some (n : Rat))
  | _ => none

/-- serde deserialization of `TimeParams` from a JSON value: requires the
three mandatory camelCase numeric fields, defaults the `Option` fields, and
ignores unknown keys. -/
def TimeParams.fromJson (j : Json) : Option TimeParams :=
  match j with
  | .obj fields =>
      match decodeNat (fields.lookup "inAmount"),
            decodeNat (fields.lookup "numberOfOrders"),
            decodeNat (fields.lookup "interval"),
            decodeOptRat (fields.lookup "minPrice"),
            decodeOptRat (fields.lookup "maxPrice"),
            decodeOptNat (fields.lookup "startAt") with
      | some a, some n, some i, some mn, some mx, some st =>
          some ⟨a, n, i, mn, mx, st⟩
      | _, _, _, _, _, _ => none
  | _ => none

/-- serde deserialization of `PriceParams` from a JSON value. -/
def PriceParams.fromJson (j : Json) : Option PriceParams :=
  match j with
  | .obj fields =>
      match decodeNat (fields.lookup "depositAmount"),
            decodeNat (fields.lookup "incrementUsdcValue"),
            decodeNat (fields.lookup "interval"),
            decodeOptNat (fields.lookup "startAt") with
      | some d, some v, some i, some st => some ⟨d, v, i, st⟩
      | _, _, _, _ => none
  | _ => none

/-- Shape test for the `TimeWrapper` variant of the untagged enum: the value
must be an object carrying a `time` key whose payload parses as
`TimeParams`. -/
def OrderParams.decodeTime (j : Json) : Option TimeParams :=
  match j with
  | .obj fields => (fields.lookup "time").bind TimeParams.fromJson
  | _ => none

/-- Shape test for the `PriceWrapper` variant of the untagged enum. -/
def OrderParams.decodePrice (j : Json) : Option PriceParams :=
  match j with
  | .obj fields => (fields.lookup "price").bind PriceParams.fromJson
  | _ => none

/-- serde deserialization of the untagged `OrderParams`: the variant shapes
are attempted in declaration order (`TimeWrapper` first, `PriceWrapper`
second); the whole decode fails only when neither shape matches. -/
def OrderParams.fromJson (j : Json) : Option OrderParams :=
  match OrderParams.decodeTime j with
  | some t => some (.TimeWrapper t)
  | none =>
      match OrderParams.decodePrice j with
      | some p => some (.PriceWrapper p)
      | none => none

/-- `CreateRecurringOrderRequest` from `types/recurring.rs`. -/
structure CreateRecurringOrderRequest where
  user : String
  input_mint : String
  output_mint : String
  params : OrderParams

/-- `CreateRecurringOrderRequest::new_time_order`. -/
def CreateRecurringOrderRequest.new_time_order
    (user input_mint output_mint : String)
    (in_amount number_of_orders interval : Nat) :
    CreateRecurringOrderRequest :=
  { user := user
    input_mint := input_mint
    output_mint := output_mint
    params := .TimeWrapper
      { in_amount := in_amount
        number_of_orders := number_of_orders
        interval := interval
        min_price := none
        max_price := none
        start_at := none } }

/-- `CreateRecurringOrderRequest::new_price_order`. -/
def CreateRecurringOrderRequest.new_price_order
    (user input_mint output_mint : String)
    (deposit_amount increment_usdc_value interval : Nat) :
    CreateRecurringOrderRequest :=
  { user := user
    input_mint := input_mint
    output_mint := output_mint
    params := .PriceWrapper
      { deposit_amount := deposit_amount
        increment_usdc_value := increment_usdc_value
        interval := interval
        start_at := none } }

/-- `CreateRecurringOrderRequest::with_start_at`: sets `start_at` inside
whichever variant `params` holds. -/
def CreateRecurringOrderRequest.with_start_at
    (r : CreateRecurringOrderRequest) (start_at : Nat) :
    CreateRecurringOrderRequest :=
  match r.params with
  | .TimeWrapper time =>
      { r with params := .TimeWrapper { time with start_at := some start_at } }
  | .PriceWrapper price =>
      { r with params := .PriceWrapper { price with start_at := some start_at } }

/-- `CreateRecurringOrderRequest::with_min_price`: assigns `min_price` only
under `if let TimeWrapper`; on a price-based request the body is skipped
and `self` is returned unchanged. -/
def CreateRecurringOrderRequest.with_min_price
    (r : CreateRecurringOrderRequest) (price : Rat) :
    CreateRecurringOrderRequest :=
  match r.params with
  | .TimeWrapper time =>
      { r with params := .TimeWrapper { time with min_price := some price } }
  | .PriceWrapper _ => r

/-- `CreateRecurringOrderRequest::with_max_price`: same guard as
`with_min_price`, assigning `max_price`. -/
def CreateRecurringOrderRequest.with_max_price
    (r : CreateRecurringOrderRequest) (price : Rat) :
    CreateRecurringOrderRequest :=
  match r.params with
  | .TimeWrapper time =>
      { r with params := .TimeWrapper { time with max_price := some price } }
  | .PriceWrapper _ => r

/-- `RecurringOrderType` from `types/recurring.rs`, declared
`#[serde(rename_all = "lowercase")]`. -/
inductive RecurringOrderType where
  | Time : RecurringOrderType
  | Price : RecurringOrderType
  | All : RecurringOrderType

/-- serde string encoding of `RecurringOrderType` (`rename_all =
"lowercase"`). -/
def RecurringOrderType.toWire : RecurringOrderType → String
  | .Time => "time"
  | .Price => "price"
  | .All => "all"

/-- Modelled from the spec: the `OrderStatus` filter enum used by
`GetRecurringOrders` is declared in a types module absent from `src/`;
only its role as an opaque recurring-order status filter is known, so it is
embedded as an opaque two-state marker. -/
inductive OrderStatus where
  | active : OrderStatus
  | history : OrderStatus

/-- `GetRecurringOrders` from `types/recurring.rs`. -/
structure GetRecurringOrders where
  recurring_type : RecurringOrderType
  order_status : OrderStatus
  user : String
  page : Nat
  mint : Option String
  include_failed_tx : Bool

/-- `GetRecurringOrders::new`: stores the filters and defaults `page := 1`,
`mint := none`, `include_failed_tx := false`. -/
def GetRecurringOrders.new (recurring_type : RecurringOrderType)
    (order_status : OrderStatus) (user : String) : GetRecurringOrders :=
  { recurring_type := recurring_type
    order_status := order_status
    user := user
    page := 1
    mint := none
    include_failed_tx := false }

/-- Builder `GetRecurringOrders::with_page`. -/
def GetRecurringOrders.with_page (r : GetRecurringOrders) (page : Nat) :
    GetRecurringOrders :=
  { r with page := page }

/-- Builder `GetRecurringOrders::with_mint`. -/
def GetRecurringOrders.with_mint (r : GetRecurringOrders) (mint : String) :
    GetRecurringOrders :=
  { r with mint := some mint }

/-- Builder `GetRecurringOrders::include_failed`: sets
`include_failed_tx := true`. -/
def GetRecurringOrders.include_failed (r : GetRecurringOrders) :
    GetRecurringOrders :=
  { r with include_failed_tx := true }

/-! ## Transport client and endpoint URLs
(`jup-ag-sdk/src/lib.rs`, `jup-ag-sdk/src/client.rs`) -/

/-- `JupiterClient`: the stored configuration.  The embedded state is the
base URL; the reqwest `Client` handle carries no observable configuration of
its own and is not modelled. -/
structure JupiterClient where
  base_url : String

/-- `JupiterClient::new`: stores `base_url.to_string()` verbatim — no
validation, trimming, or trailing-slash normalization. -/
def JupiterClient.new (base_url : String) : JupiterClient :=
  { base_url := base_url }

/-- URL of `get_quote`: `format!("\x7b\x7d/swap/v1/quote", self.base_url)`. -/
def JupiterClient.get_quote_url (c : JupiterClient) : String :=
  c.base_url ++ "/swap/v1/quote"

/-- URL of `get_swap_transaction`. -/
def JupiterClient.get_swap_transaction_url (c : JupiterClient) : String :=
  c.base_url ++ "/swap/v1/swap"

/-- URL of `get_swap_instructions`. -/
def JupiterClient.get_swap_instructions_url (c : JupiterClient) : String :=
  c.base_url ++ "/swap/v1/swap-instructions"

/-- URL of `get_ultra_order`. -/
def JupiterClient.get_ultra_order_url (c : JupiterClient) : String :=
  c.base_url ++ "/ultra/v1/order"

/-- URL of `ultra_execute_order`. -/
def JupiterClient.ultra_execute_order_url (c : JupiterClient) : String :=
  c.base_url ++ "/ultra/v1/execute"

/-- URL of `get_token_balances` for a wallet address. -/
def JupiterClient.get_token_balances_url (c : JupiterClient)
    (address : String) : String :=
  c.base_url ++ "/ultra/v1/balances/" ++ address

/-- URL of `shield`. -/
def JupiterClient.shield_url (c : JupiterClient) : String :=
  c.base_url ++ "/ultra/v1/shield"

/-- URL of `routers`. -/
def JupiterClient.routers_url (c : JupiterClient) : String :=
  c.base_url ++ "/ultra/v1/order/routers"

/-- URL of `get_token_price` (`client/token_api.rs`). -/
def JupiterClient.get_token_price_url (c : JupiterClient) : String :=
  c.base_url ++ "/price/v2"

/-- URL of `create_trigger_order` (`client/trigger_api.rs`). -/
def JupiterClient.create_trigger_order_url (c : JupiterClient) : String :=
  c.base_url ++ "/trigger/v1/createOrder"

/-- URL of `execute_trigger_order`. -/
def JupiterClient.execute_trigger_order_url (c : JupiterClient) : String :=
  c.base_url ++ "/trigger/v1/execute"

/-- URL of `cancel_trigger_order`. -/
def JupiterClient.cancel_trigger_order_url (c : JupiterClient) : String :=
  c.base_url ++ "/trigger/v1/cancelOrder"

/-- URL of `cancel_trigger_orders`. -/
def JupiterClient.cancel_trigger_orders_url (c : JupiterClient) : String :=
  c.base_url ++ "/trigger/v1/cancelOrders"

/-- URL of `get_trigger_orders`. -/
def JupiterClient.get_trigger_orders_url (c : JupiterClient) : String :=
  c.base_url ++ "/trigger/v1/getTriggerOrders"

/-- Query parameters of `JupiterClient::shield`:
`vec![("mints", mints.join(","))]` — a single comma-joined parameter. -/
def shield_query (mints : List String) : List (String × String) :=
  [("mints", vec_to_comma_string mints)]

/-! ## Error classification
(`jup-ag-sdk/src/error.rs` is absent from `src/`; its consumers in
`lib.rs`, `client/token_api.rs` and `client/trigger_api.rs` are present) -/

/-- A completed HTTP exchange: the numeric status code together with the
outcome of reading the response body (`none` when the body read itself
fails). -/
structure HttpResponse where
  status : Nat
  bodyRead : Option String

/-- `reqwest::StatusCode::is_success`: any 2xx status. -/
def HttpResponse.is_success (r : HttpResponse) : Bool :=
  decide (200 ≤ r.status ∧ r.status ≤ 299)

/-- Modelled from the spec: the error enum `JupiterClientError` lives in
`error.rs`, which is absent from `src/`.  Spec §4.2 fixes a closed set of
four error kinds; the constructor names used by the present callers are
`RequestError` (transport failure), `DeserializationError` (decode failure,
carrying the parser's message) and, for the HTTP-failure kind produced by
`handle_response`, an `ApiError` carrying the status code and the response
body text.  `InvalidHeaderError` is the configuration kind produced by the
`?` on header construction. -/
inductive JupiterClientError where
  | RequestError (msg : String) : JupiterClientError
  | ApiError (status : Nat) (message : String) : JupiterClientError
  | DeserializationError (msg : String) : JupiterClientError
  | InvalidHeaderError (msg : String) : JupiterClientError

/-- Modelled from the spec: `handle_response` lives in the absent
`error.rs`.  Spec §4.2: a non-2xx response yields the HTTP-failure kind
carrying the status code and the raw response body text, best-effort
captured — if the body read itself fails, a fixed placeholder diagnostic
string is used instead (the placeholder text follows the sibling
implementation in the repository's `src/lib.rs`); a 2xx response is passed
through for decoding. -/
def handle_response (r : HttpResponse) :
    Except JupiterClientError HttpResponse :=
  if r.is_success then .ok r
  else .error (.ApiError r.status
    (r.bodyRead.getD "Unable to get error details"))

/-- Outcome of `self.client.…send().await`: either a completed HTTP
exchange or a transport failure with its diagnostic. -/
inductive SendOutcome where
  | sent (r : HttpResponse) : SendOutcome
  | failed (msg : String) : SendOutcome

/-- The response-handling template shared by every endpoint operation in
`lib.rs` / `client/token_api.rs` / `client/trigger_api.rs`:
a transport failure becomes `RequestError`; the response then passes through
`handle_response`; on its success the body is decoded by the typed parser
(`response.json::<T>()`), whose failure — including a failed body read —
becomes `DeserializationError` carrying the parser's message. -/
def runEndpoint {α : Type} (json : Option String → Except String α)
    (outcome : SendOutcome) : Except JupiterClientError α :=
  match outcome with
  | .failed e => .error (.RequestError e)
  | .sent resp =>
      match handle_response resp with
      | .error e => .error e
      | .ok resp =>
          match json resp.bodyRead with
          | .ok v => .ok v
          | .error e => .error (.DeserializationError e)

/-! ## Theorems -/

theorem lookup_eq_none_iff {α : Type} (l : List (String × α)) (k : String) :
    l.lookup k = none ↔ k ∉ l.map Prod.fst := by
  induction l with
  | nil => simp [List.lookup]
  | cons hd tl ih =>
      cases hd with
      | mk k' v =>
          by_cases h : (k == k') = true
          · have hk : k = k' := by simpa using h
            simp [List.lookup, h, hk]
          · simp only [Bool.not_eq_true] at h
            have hne : k ≠ k' := by
              intro e
              subst e
              simp at h
            simp [List.lookup, h, hne, ih]

/-- C1: for each request type, the wire lookup of every optional field's
key equals the field's value mapped through its inner encoding — so an
unset (`none`) field produces `none` (together with the final conjuncts:
the key is absent from the wire form entirely, not sent as null/empty),
while a set field serializes its inner value directly.  Covers
`QuoteRequest` (query of `get_quote`), `TokenPriceRequest` and
`UltraOrderRequest` (serde query strings), and `SwapRequest` (JSON body). -/
theorem omitted_optionals_not_present :
    (∀ q : QuoteRequest,
      (get_quote_query q).lookup "slippageBps" = q.slippage_bps.map toString ∧
      (get_quote_query q).lookup "swapMode"
        = q.swap_mode.map QuoteGetSwapModeEnum.toWire ∧
      (get_quote_query q).lookup "dexes" = q.dexes.map vec_to_comma_string ∧
      (get_quote_query q).lookup "excludeDexes"
        = q.exclude_dexes.map vec_to_comma_string ∧
      (get_quote_query q).lookup "restrictIntermediateTokens"
        = q.restrict_intermediate_tokens.map boolStr ∧
      (get_quote_query q).lookup "onlyDirectRoutes"
        = q.only_direct_routes.map boolStr ∧
      (get_quote_query q).lookup "asLegacyTransaction"
        = q.as_legacy_transaction.map boolStr ∧
      (get_quote_query q).lookup "platformFeeBps"
        = q.platform_fee_bps.map toString ∧
      (get_quote_query q).lookup "maxAccounts"
        = q.max_accounts.map toString ∧
      (get_quote_query q).lookup "autoSlippage"
        = q.dyanmic_slippage.map boolStr) ∧
    (∀ r : TokenPriceRequest,
      r.toQuery.lookup "vsToken" = r.vs_token ∧
      r.toQuery.lookup "showExtraInfo" = r.show_extra_info.map boolStr) ∧
    (∀ u : UltraOrderRequest,
      u.toQuery.lookup "taker" = u.taker ∧
      u.toQuery.lookup "referralAccount" = u.referral_account ∧
      u.toQuery.lookup "referralFee" = u.referral_fee.map toString) ∧
    (∀ s : SwapRequest,
      s.toJson.objLookup "wrapAndUnwrapSol"
        = s.wrap_and_unwrap_sol.map Json.bool ∧
      s.toJson.objLookup "useSharedAccounts"
        = s.use_shared_accounts.map Json.bool ∧
      s.toJson.objLookup "feeAccount" = s.fee_account.map Json.str ∧
      s.toJson.objLookup "trackingAccount" = s.tracking_account.map Json.str ∧
      s.toJson.objLookup "prioritizationFeeLamports"
        = s.prioritization_fee_lamports.map PrioritizationFeeLamports.toJson ∧
      s.toJson.objLookup "asLegacyTransaction"
        = s.as_legacy_transaction.map Json.bool ∧
      s.toJson.objLookup "destinationTokenAccount"
        = s.destination_token_account.map Json.str ∧
      s.toJson.objLookup "dynamicComputeUnitLimit"
        = s.dynamic_compute_unit_limit.map Json.bool ∧
      s.toJson.objLookup "skipUserAccountRpcCalls"
        = s.skip_user_account_rpc_calls.map Json.bool ∧
      s.toJson.objLookup "dyanmicSlippage" = s.dyanmic_slippage.map Json.bool ∧
      s.toJson.objLookup "computeUnitPriceMicroLamports"
        = s.compute_unit_price_micro_lamports.map Json.nat ∧
      s.toJson.objLookup "blockhashSlotsToExpiry"
        = s.blockhash_slots_to_expiry.map Json.nat) ∧
    (∀ (q : QuoteRequest) (k : String),
      (get_quote_query q).lookup k = none
        ↔ k ∉ (get_quote_query q).map Prod.fst) ∧
    (∀ (r : TokenPriceRequest) (k : String),
      r.toQuery.lookup k = none ↔ k ∉ r.toQuery.map Prod.fst) ∧
    (∀ (u : UltraOrderRequest) (k : String),
      u.toQuery.lookup k = none ↔ k ∉ u.toQuery.map Prod.fst) ∧
    (∀ (s : SwapRequest) (k : String),
      s.toJson.objLookup k = none ↔ k ∉ s.toJson.objKeys) := by
  refine ⟨?_, ?_, ?_, ?_, fun q k => lookup_eq_none_iff _ _,
      fun r k => lookup_eq_none_iff _ _, fun u k => lookup_eq_none_iff _ _,
      fun s k => lookup_eq_none_iff _ _⟩ <;> intros <;>
    simp +decide [get_quote_query, TokenPriceRequest.toQuery,
      UltraOrderRequest.toQuery, SwapRequest.toJson, Json.objLookup,
      lookup_append, lookup_optPair_same, lookup_optPair_ne, List.lookup]

/-- C4: every list-valued field that reaches the wire is emitted as a single
query parameter whose value is the elements joined with commas in original
order (`join(",")` / `vec_to_comma_string` = `String.intercalate ","`), and
the key occurs exactly once when the list is set — never as a repeated-key
parameter (and the value is a plain string, not a JSON array). -/
theorem comma_joined_list_params :
    (∀ xs : List String, vec_to_comma_string xs = String.intercalate "," xs) ∧
    (∀ q : QuoteRequest,
      (get_quote_query q).lookup "dexes" = q.dexes.map vec_to_comma_string ∧
      (get_quote_query q).countP (fun p => p.1 == "dexes")
        = if q.dexes.isSome then 1 else 0) ∧
    (∀ q : QuoteRequest,
      (get_quote_query q).lookup "excludeDexes"
        = q.exclude_dexes.map vec_to_comma_string ∧
      (get_quote_query q).countP (fun p => p.1 == "excludeDexes")
        = if q.exclude_dexes.isSome then 1 else 0) ∧
    (∀ r : TokenPriceRequest,
      r.toQuery.lookup "ids"
        = some (String.intercalate "," r.token_mints) ∧
      r.toQuery.countP (fun p => p.1 == "ids") = 1) ∧
    (∀ mints : List String,
      shield_query mints = [("mints", String.intercalate "," mints)] ∧
      (shield_query mints).countP (fun p => p.1 == "mints") = 1) := by
  refine ⟨fun xs => rfl, ?_, ?_, ?_, ?_⟩ <;> intros <;>
    refine ⟨?_, ?_⟩ <;>
    first
    | rfl
    | simp +decide [get_quote_query, TokenPriceRequest.toQuery, shield_query,
        vec_to_comma_string, lookup_append, lookup_optPair_same,
        lookup_optPair_ne, List.lookup, List.countP_append,
        countP_optPair_same, countP_optPair_ne, List.countP_cons]

/-- C5: enum wire encoding is exact-match on casing: the swap-mode enum
serializes `ExactIn`/`ExactOut` with the source-defined casing (both under
its serde encoding and under the explicit `match` in `get_quote`), and the
recurring order-type enum serializes `Time`/`Price`/`All` to the lower-case
literals `"time"`/`"price"`/`"all"`. -/
theorem enum_exact_casing :
    QuoteGetSwapModeEnum.toWire .ExactIn = "ExactIn" ∧
    QuoteGetSwapModeEnum.toWire .ExactOut = "ExactOut" ∧
    RecurringOrderType.toWire .Time = "time" ∧
    RecurringOrderType.toWire .Price = "price" ∧
    RecurringOrderType.toWire .All = "all" ∧
    (∀ q : QuoteRequest, ∀ m : QuoteGetSwapModeEnum,
      (get_quote_query (q.with_swap_mode m)).lookup "swapMode"
        = some m.toWire) ∧
    (get_quote_query
        ((QuoteRequest.new "So11111111111111111111111111111111111111112"
          "EPjFWdd5AufqSSqeM2qN1xzybapC8G4wEGGkZwyTDt1v" 1000000
          ).with_swap_mode .ExactOut)).lookup "swapMode"
      = some "ExactOut" := by
  refine ⟨rfl, rfl, rfl, rfl, rfl, ?_, by rfl⟩
  intro q m
  simp +decide [get_quote_query, QuoteRequest.with_swap_mode, lookup_append,
    lookup_optPair_same, lookup_optPair_ne, List.lookup]

/-- C10: `JupiterClient::new` stores the supplied base URL verbatim, and
every endpoint operation targets the direct string concatenation of the
base URL with its fixed `/`-prefixed path suffix — so a base URL ending in
`/` yields a double slash, as the final closed conjunct exhibits. -/
theorem base_url_stored_verbatim_and_concatenated :
    (∀ u : String, (JupiterClient.new u).base_url = u) ∧
    (∀ u : String,
      (JupiterClient.new u).get_quote_url = u ++ "/swap/v1/quote" ∧
      (JupiterClient.new u).get_swap_transaction_url = u ++ "/swap/v1/swap" ∧
      (JupiterClient.new u).get_swap_instructions_url
        = u ++ "/swap/v1/swap-instructions" ∧
      (JupiterClient.new u).get_ultra_order_url = u ++ "/ultra/v1/order" ∧
      (JupiterClient.new u).ultra_execute_order_url
        = u ++ "/ultra/v1/execute" ∧
      (∀ address : String,
        (JupiterClient.new u).get_token_balances_url address
          = u ++ "/ultra/v1/balances/" ++ address) ∧
      (JupiterClient.new u).shield_url = u ++ "/ultra/v1/shield" ∧
      (JupiterClient.new u).routers_url = u ++ "/ultra/v1/order/routers" ∧
      (JupiterClient.new u).get_token_price_url = u ++ "/price/v2" ∧
      (JupiterClient.new u).create_trigger_order_url
        = u ++ "/trigger/v1/createOrder" ∧
      (JupiterClient.new u).execute_trigger_order_url
        = u ++ "/trigger/v1/execute" ∧
      (JupiterClient.new u).cancel_trigger_order_url
        = u ++ "/trigger/v1/cancelOrder" ∧
      (JupiterClient.new u).cancel_trigger_orders_url
        = u ++ "/trigger/v1/cancelOrders" ∧
      (JupiterClient.new u).get_trigger_orders_url
        = u ++ "/trigger/v1/getTriggerOrders") ∧
    (JupiterClient.new "https://lite-api.jup.ag/").get_quote_url
      = "https://lite-api.jup.ag//swap/v1/quote" := by
  refine ⟨fun u => rfl, fun u =>
    ⟨rfl, rfl, rfl, rfl, rfl, fun a => rfl, rfl, rfl, rfl, rfl, rfl, rfl,
     rfl, rfl⟩, by rfl⟩

/-- C7: every builder-style with-field transformation sets exactly the named
field to the supplied value, and writing the receiver's old value back into
that one field recovers the receiver exactly — so no other field is touched.
Covers all ten `QuoteRequest` builders, both `TokenPriceRequest` builders,
`UltraOrderRequest::add_taker`, and the three `GetRecurringOrders`
builders. -/
theorem builders_set_exactly_named_field :
    (∀ (q : QuoteRequest) (v : Nat),
      (q.with_slippage_bps v).slippage_bps = some v ∧
      { q.with_slippage_bps v with slippage_bps := q.slippage_bps } = q) ∧
    (∀ (q : QuoteRequest) (v : QuoteGetSwapModeEnum),
      (q.with_swap_mode v).swap_mode = some v ∧
      { q.with_swap_mode v with swap_mode := q.swap_mode } = q) ∧
    (∀ (q : QuoteRequest) (v : List String),
      (q.with_dexes v).dexes = some v ∧
      { q.with_dexes v with dexes := q.dexes } = q) ∧
    (∀ (q : QuoteRequest) (v : List String),
      (q.with_exclude_dexes v).exclude_dexes = some v ∧
      { q.with_exclude_dexes v with exclude_dexes := q.exclude_dexes } = q) ∧
    (∀ (q : QuoteRequest) (v : Bool),
      (q.with_restrict_intermediate_tokens v).restrict_intermediate_tokens
        = some v ∧
      { q.with_restrict_intermediate_tokens v with
          restrict_intermediate_tokens := q.restrict_intermediate_tokens }
        = q) ∧
    (∀ (q : QuoteRequest) (v : Bool),
      (q.with_only_direct_routes v).only_direct_routes = some v ∧
      { q.with_only_direct_routes v with
          only_direct_routes := q.only_direct_routes } = q) ∧
    (∀ (q : QuoteRequest) (v : Bool),
      (q.with_as_legacy_transaction v).as_legacy_transaction = some v ∧
      { q.with_as_legacy_transaction v with
          as_legacy_transaction := q.as_legacy_transaction } = q) ∧
    (∀ (q : QuoteRequest) (v : Nat),
      (q.with_platform_fee_bps v).platform_fee_bps = some v ∧
      { q.with_platform_fee_bps v with
          platform_fee_bps := q.platform_fee_bps } = q) ∧
    (∀ (q : QuoteRequest) (v : Nat),
      (q.with_max_accounts v).max_accounts = some v ∧
      { q.with_max_accounts v with max_accounts := q.max_accounts } = q) ∧
    (∀ (q : QuoteRequest) (v : Bool),
      (q.with_dyanmic_slippage v).dyanmic_slippage = some v ∧
      { q.with_dyanmic_slippage v with
          dyanmic_slippage := q.dyanmic_slippage } = q) ∧
    (∀ (r : TokenPriceRequest) (v : String),
      (r.with_vs_token v).vs_token = some v ∧
      { r.with_vs_token v with vs_token := r.vs_token } = r) ∧
    (∀ (r : TokenPriceRequest) (v : Bool),
      (r.with_show_extra_info v).show_extra_info = some v ∧
      { r.with_show_extra_info v with
          show_extra_info := r.show_extra_info } = r) ∧
    (∀ (u : UltraOrderRequest) (v : String),
      (u.add_taker v).taker = some v ∧
      { u.add_taker v with taker := u.taker } = u) ∧
    (∀ (g : GetRecurringOrders) (v : Nat),
      (g.with_page v).page = v ∧
      { g.with_page v with page := g.page } = g) ∧
    (∀ (g : GetRecurringOrders) (v : String),
      (g.with_mint v).mint = some v ∧
      { g.with_mint v with mint := g.mint } = g) ∧
    (∀ g : GetRecurringOrders,
      g.include_failed.include_failed_tx = true ∧
      { g.include_failed with
          include_failed_tx := g.include_failed_tx } = g) := by
  refine ⟨?_, ?_, ?_, ?_, ?_, ?_, ?_, ?_, ?_, ?_, ?_, ?_, ?_, ?_, ?_, ?_⟩ <;>
    intros <;> exact ⟨rfl, rfl⟩

/-- C8 counterexample: the claim asserts no `QuoteRequest` with
`amount = 0` is constructible through the public interface, but
`QuoteRequest::new` performs no validation and stores the amount verbatim. -/
theorem quote_amount_zero_constructible :
    (QuoteRequest.new "So11111111111111111111111111111111111111112"
      "EPjFWdd5AufqSSqeM2qN1xzybapC8G4wEGGkZwyTDt1v" 0).amount = 0 := rfl

/-- C8 (amended): `QuoteRequest::new` stores the supplied amount verbatim
with no validation (so `amount > 0` is not established by the constructor),
but every builder-style transformation preserves `amount`, so `amount > 0`
holds for a value derived by builders exactly when the constructor argument
was positive. -/
theorem quote_amount_unvalidated_but_preserved :
    (∀ (input_mint output_mint : String) (amount : Nat),
      (QuoteRequest.new input_mint output_mint amount).amount = amount) ∧
    (∀ (q : QuoteRequest) (v : Nat),
      (q.with_slippage_bps v).amount = q.amount) ∧
    (∀ (q : QuoteRequest) (v : QuoteGetSwapModeEnum),
      (q.with_swap_mode v).amount = q.amount) ∧
    (∀ (q : QuoteRequest) (v : List String),
      (q.with_dexes v).amount = q.amount) ∧
    (∀ (q : QuoteRequest) (v : List String),
      (q.with_exclude_dexes v).amount = q.amount) ∧
    (∀ (q : QuoteRequest) (v : Bool),
      (q.with_restrict_intermediate_tokens v).amount = q.amount) ∧
    (∀ (q : QuoteRequest) (v : Bool),
      (q.with_only_direct_routes v).amount = q.amount) ∧
    (∀ (q : QuoteRequest) (v : Bool),
      (q.with_as_legacy_transaction v).amount = q.amount) ∧
    (∀ (q : QuoteRequest) (v : Nat),
      (q.with_platform_fee_bps v).amount = q.amount) ∧
    (∀ (q : QuoteRequest) (v : Nat),
      (q.with_max_accounts v).amount = q.amount) ∧
    (∀ (q : QuoteRequest) (v : Bool),
      (q.with_dyanmic_slippage v).amount = q.amount) := by
  refine ⟨?_, ?_, ?_, ?_, ?_, ?_, ?_, ?_, ?_, ?_, ?_⟩ <;> intros <;> rfl

/-- C9: on a price-based recurring-order request, `with_min_price` and
`with_max_price` return the request completely unchanged; on a time-based
request they set exactly `min_price` (resp. `max_price`) inside the time
parameters and leave every other field unchanged. -/
theorem with_min_max_price_behaviour :
    ∀ (r : CreateRecurringOrderRequest) (v : Rat),
      (∀ p : PriceParams, r.params = OrderParams.PriceWrapper p →
        r.with_min_price v = r ∧ r.with_max_price v = r) ∧
      (∀ t : TimeParams, r.params = OrderParams.TimeWrapper t →
        r.with_min_price v
          = { r with
              params := .TimeWrapper { t with min_price := some v } } ∧
        r.with_max_price v
          = { r with
              params := .TimeWrapper { t with max_price := some v } }) := by
  intro r v
  constructor
  · intro p h
    constructor <;>
      simp [CreateRecurringOrderRequest.with_min_price,
        CreateRecurringOrderRequest.with_max_price, h]
  · intro t h
    constructor <;>
      simp [CreateRecurringOrderRequest.with_min_price,
        CreateRecurringOrderRequest.with_max_price, h]

/-- C9 witness: a concrete price-based order is untouched by
`with_min_price`, and a concrete time-based order gets exactly its
`min_price` field set. -/
theorem with_min_max_price_behaviour_witness :
    (CreateRecurringOrderRequest.new_price_order "usr" "mintA" "mintB"
        1000 50 3600).with_min_price 2 =
      CreateRecurringOrderRequest.new_price_order "usr" "mintA" "mintB"
        1000 50 3600 ∧
    (CreateRecurringOrderRequest.new_time_order "usr" "mintA" "mintB"
        1000 10 3600).with_min_price 2 =
      { CreateRecurringOrderRequest.new_time_order "usr" "mintA" "mintB"
          1000 10 3600 with
        params := .TimeWrapper
          { in_amount := 1000
            number_of_orders := 10
            interval := 3600
            min_price := some 2
            max_price := none
            start_at := none } } :=
  ⟨((with_min_max_price_behaviour _ 2).1
      { deposit_amount := 1000, increment_usdc_value := 50, interval := 3600,
        start_at := none } rfl).1,
   ((with_min_max_price_behaviour _ 2).2
      { in_amount := 1000, number_of_orders := 10, interval := 3600,
        min_price := none, max_price := none, start_at := none } rfl).1⟩

/-- C2: when the HTTP exchange completes with a non-2xx status, every
endpoint operation returns the HTTP-failure error kind carrying the numeric
status code and the raw response body text (or the fixed placeholder when
the body read itself fails), and never the decoding-failure kind. -/
theorem non_2xx_yields_api_error {α : Type}
    (json : Option String → Except String α) (resp : HttpResponse)
    (h : resp.is_success = false) :
    runEndpoint json (.sent resp)
      = .error (.ApiError resp.status
          (resp.bodyRead.getD "Unable to get error details")) ∧
    ∀ m : String,
      runEndpoint json (.sent resp)
        ≠ .error (.DeserializationError m) := by
  have hrun : runEndpoint json (.sent resp)
      = .error (.ApiError resp.status
          (resp.bodyRead.getD "Unable to get error details")) := by
    simp [runEndpoint, handle_response, h]
  exact ⟨hrun, fun m hc => by simp [hrun] at hc⟩

/-- C2 witness: a 400 response with a JSON error body yields the
HTTP-failure kind with status 400 and the raw body; a 503 response whose
body read fails yields the placeholder diagnostic. -/
theorem non_2xx_yields_api_error_witness :
    runEndpoint (fun _ => (.error "boom" : Except String Nat))
        (.sent { status := 400,
                 bodyRead := some "\x7b\"error\":\"invalid mint\"\x7d" })
      = .error (.ApiError 400 "\x7b\"error\":\"invalid mint\"\x7d") ∧
    runEndpoint (fun _ => (.error "boom" : Except String Nat))
        (.sent { status := 503, bodyRead := none })
      = .error (.ApiError 503 "Unable to get error details") :=
  ⟨(non_2xx_yields_api_error (fun _ => (.error "boom" : Except String Nat))
      { status := 400, bodyRead := some "\x7b\"error\":\"invalid mint\"\x7d" }
      (by decide)).1,
   (non_2xx_yields_api_error (fun _ => (.error "boom" : Except String Nat))
      { status := 503, bodyRead := none } (by decide)).1⟩

/-- C3: when the HTTP exchange completes with a 2xx status but the typed
body decode fails, every endpoint operation returns the decoding-failure
kind carrying the parser's diagnostic message; moreover every outcome is a
classified success or error value (the handler is a total function — no
panic or abort path exists). -/
theorem decode_failure_yields_deserialization_error {α : Type}
    (json : Option String → Except String α) (resp : HttpResponse)
    (m : String) (hs : resp.is_success = true)
    (hp : json resp.bodyRead = .error m) :
    runEndpoint json (.sent resp) = .error (.DeserializationError m) ∧
    ∀ outcome : SendOutcome,
      (∃ v, runEndpoint json outcome = .ok v) ∨
      (∃ e, runEndpoint json outcome = .error e) := by
  constructor
  · simp [runEndpoint, handle_response, hs, hp]
  · intro outcome
    cases hr : runEndpoint json outcome with
    | ok v => exact .inl ⟨v, rfl⟩
    | error e => exact .inr ⟨e, rfl⟩

/-- C3 witness: a 200 response whose body is not valid JSON for the
expected type yields the decoding-failure kind with the parser's message. -/
theorem decode_failure_yields_deserialization_error_witness :
    runEndpoint
        (fun b => if b = some "not json" then
            (.error "expected value at line 1 column 1" : Except String Nat)
          else .ok 0)
        (.sent { status := 200, bodyRead := some "not json" })
      = .error (.DeserializationError "expected value at line 1 column 1") :=
  (decode_failure_yields_deserialization_error
    (fun b => if b = some "not json" then
        (.error "expected value at line 1 column 1" : Except String Nat)
      else .ok 0)
    { status := 200, bodyRead := some "not json" }
    "expected value at line 1 column 1" (by decide) (by simp)).1

/-- C6: the untagged `OrderParams` serializes to a JSON object whose single
key is `time` for the time-based variant and `price` for the price-based
one; deserialization attempts the variant shapes in declaration order
(time-based first, then price-based) and fails exactly when neither shape
matches. -/
theorem order_params_untagged_union :
    (∀ t : TimeParams,
      OrderParams.toJson (.TimeWrapper t) = .obj [("time", t.toJson)]) ∧
    (∀ p : PriceParams,
      OrderParams.toJson (.PriceWrapper p) = .obj [("price", p.toJson)]) ∧
    (∀ (j : Json) (t : TimeParams), OrderParams.decodeTime j = some t →
      OrderParams.fromJson j = some (.TimeWrapper t)) ∧
    (∀ (j : Json) (p : PriceParams), OrderParams.decodeTime j = none →
      OrderParams.decodePrice j = some p →
      OrderParams.fromJson j = some (.PriceWrapper p)) ∧
    (∀ j : Json, OrderParams.fromJson j = none ↔
      OrderParams.decodeTime j = none ∧ OrderParams.decodePrice j = none) := by
  refine ⟨fun t => rfl, fun p => rfl, ?_, ?_, ?_⟩
  · intro j t ht
    simp [OrderParams.fromJson, ht]
  · intro j p ht hp
    simp [OrderParams.fromJson, ht, hp]
  · intro j
    unfold OrderParams.fromJson
    cases ht : OrderParams.decodeTime j with
    | some t => simp
    | none => cases hp : OrderParams.decodePrice j with
      | some p => simp
      | none => simp

/-- C6 witness: round trips through the untagged codec on a concrete
time-based and a concrete price-based parameter value, plus a value
matching neither shape decoding to failure. -/
theorem order_params_untagged_union_witness :
    OrderParams.fromJson
        (OrderParams.toJson (.TimeWrapper
          { in_amount := 100, number_of_orders := 10, interval := 86400,
            min_price := none, max_price := none, start_at := none }))
      = some (.TimeWrapper
          { in_amount := 100, number_of_orders := 10, interval := 86400,
            min_price := none, max_price := none, start_at := none }) ∧
    OrderParams.fromJson
        (OrderParams.toJson (.PriceWrapper
          { deposit_amount := 500, increment_usdc_value := 25,
            interval := 604800, start_at := some 1700000000 }))
      = some (.PriceWrapper
          { deposit_amount := 500, increment_usdc_value := 25,
            interval := 604800, start_at := some 1700000000 }) ∧
    OrderParams.fromJson (.obj [("neither", .nat 1)]) = none :=
  ⟨order_params_untagged_union.2.2.1 _
      { in_amount := 100, number_of_orders := 10, interval := 86400,
        min_price := none, max_price := none, start_at := none } rfl,
   order_params_untagged_union.2.2.2.1 _
      { deposit_amount := 500, increment_usdc_value := 25,
        interval := 604800, start_at := some 1700000000 } rfl rfl,
   (order_params_untagged_union.2.2.2.2 _).2 ⟨rfl, rfl⟩⟩

end JupAg
